import Mathlib

/-!
Verification of the step-pipeline core of an AI marketing-audit web service
(single source file `src/backend/app.py`). The embedding below translates,
from the source:

* Python dict / `str.format` semantics needed by `generate_prompt`
  (`Ctx`, `parseFmt`, `render`), including the `KeyError` raised when a
  placeholder key is absent;
* Python `str.find` / slicing / `strip` semantics (`pyFind`, `pySlice`,
  `pyStrip`) needed by the website-summary extraction in `process_step`;
* `fetch_website_data` (lines 61-88), parameterised by the outcome of the
  external HTTP fetch and HTML parse (`FetchOutcome`/`Soup`);
* the ORM rows (`ProjectRow`, `StepRow`, `SummaryRow`, `ContextRow`) and the
  database as lists of rows (`DB`);
* the `/api/process` handler `process_step` (lines 175-232), parameterised by
  the fetch outcome and the completion-service outcome; the step-specific
  context enrichment (lines 190-198) is the function `enrich`.
-/

/-- A Python value as it occurs in the context dict of `process_step`:
a string, a list of strings (the `h1_tags` / `h2_tags` entries), or `None`
(the value of `soup.title.string` for a `<title>` tag with no string). -/
inductive PyVal where
  | str (s : String)
  | strList (l : List String)
  | pyNone
deriving DecidableEq, Repr

/-- A Python dict with string keys, as an insertion-ordered association list
(the context record passed to and enriched by `process_step`). -/
abbrev Ctx := List (String × PyVal)

/-- Dict lookup: the value at the first matching key, `none` when absent. -/
def ctxGet : Ctx → String → Option PyVal
  | [], _ => none
  | p :: rest, k => if p.1 = k then some p.2 else ctxGet rest k

/-- Dict assignment `d[k] = v`: replace the first binding of `k` in place,
or append a new binding at the end. -/
def ctxSet : Ctx → String → PyVal → Ctx
  | [], k, v => [(k, v)]
  | p :: rest, k, v => if p.1 = k then (k, v) :: rest else p :: ctxSet rest k v

/-- Dict `d.update(kvs)`: assign each pair of `kvs` in order. -/
def ctxUpdate (c : Ctx) (kvs : List (String × PyVal)) : Ctx :=
  kvs.foldl (fun acc kv => ctxSet acc kv.1 kv.2) c

/-- `str(v)` as Python renders a dict value into a format placeholder. -/
def pyStr : PyVal → String
  | .str s => s
  | .strList l => "[" ++ String.intercalate ", " (l.map (fun s => "'" ++ s ++ "'")) ++ "]"
  | .pyNone => "None"

/-- First index at which `pat` occurs in the remaining haystack, counting from
`i`; `none` when it does not occur. -/
def findSubAux (pat : List Char) : List Char → Nat → Option Nat
  | [], i => if pat.isPrefixOf ([] : List Char) then some i else none
  | c :: t, i => if pat.isPrefixOf (c :: t) then some i else findSubAux pat t (i + 1)

/-- Python `s.find(pat)`: the lowest index of an occurrence, `-1` when absent. -/
def pyFind (s pat : String) : Int :=
  match findSubAux pat.data s.data 0 with
  | some i => (i : Int)
  | none => -1

/-- A Python index normalised against length `n`: a negative index counts from
the end, and the result is clamped into `[0, n]` as slicing does. -/
def pyIdx (n : Nat) (i : Int) : Nat :=
  if i < 0 then
    if i + n < 0 then 0 else min (i + n).toNat n
  else min i.toNat n

/-- Python slicing `s[start:stop]` (step 1): the characters from the
normalised start (inclusive) to the normalised stop (exclusive). -/
def pySlice (s : String) (start stop : Int) : String :=
  ⟨(s.data.take (pyIdx s.data.length stop)).drop (pyIdx s.data.length start)⟩

/-- A character of Python's `str.strip` whitespace set. -/
def isPySpace (c : Char) : Bool :=
  c = ' ' || c = '\t' || c = '\n' || c = '\r' || c = '\x0b' || c = '\x0c'

/-- Python `s.strip()`: drop whitespace from both ends. -/
def pyStrip (s : String) : String :=
  ⟨((s.data.dropWhile isPySpace).reverse.dropWhile isPySpace).reverse⟩

/-- One piece of a parsed Python format string: literal text or a `{key}`
placeholder. -/
inductive Seg where
  | lit (s : String)
  | ph (key : String)
deriving DecidableEq, Repr

/-- The scanner behind `parseFmt`: the second argument is `none` outside a
placeholder and `some acc` inside one, `acc` holding the key's characters read
so far in reverse. -/
def parseFmtAux : List Char → Option (List Char) → List Seg
  | [], none => []
  | [], some acc => [Seg.ph ⟨acc.reverse⟩]
  | c :: rest, some acc =>
      if c = '}' then Seg.ph ⟨acc.reverse⟩ :: parseFmtAux rest none
      else parseFmtAux rest (some (c :: acc))
  | '{' :: '{' :: rest, none => Seg.lit "\x7b" :: parseFmtAux rest none
  | '}' :: '}' :: rest, none => Seg.lit "\x7d" :: parseFmtAux rest none
  | '{' :: rest, none => parseFmtAux rest (some [])
  | c :: rest, none => Seg.lit ⟨[c]⟩ :: parseFmtAux rest none

/-- Parse a Python format string: `\x7b\x7b` and `\x7d\x7d` are escaped braces,
`\x7bname\x7d` is a placeholder, anything else is literal text. -/
def parseFmt (cs : List Char) : List Seg :=
  parseFmtAux cs none

/-- Substitute the placeholders of a parsed format string from a context dict,
left to right; a placeholder whose key is absent raises `KeyError` (Python
renders the exception's message as the quoted key). -/
def render : List Seg → Ctx → Except String String
  | [], _ => Except.ok ""
  | Seg.lit s :: rest, c => (render rest c).map (fun r => s ++ r)
  | Seg.ph k :: rest, c =>
      match ctxGet c k with
      | none => Except.error ("'" ++ k ++ "'")
      | some v => (render rest c).map (fun r => pyStr v ++ r)

/-- The prompt template table of `generate_prompt` (src/backend/app.py lines
91-147): the Python dict from step number to format string, written as an
if-chain (`dict.get` with default `""` is the final else branch). The strings
are verbatim from the source. -/
def promptsDict (step : Nat) : String :=
  if step = 1 then
    "Perform an audit on the following website, focusing on:
        1. On-page SEO opportunities
        2. Tracking tag installation (GA and FB tags)
        3. Overall UI/UX opportunities
        4. CRO opportunities

        Additionally, provide a brief summary of the website's content and purpose.

        Here's the website data:
        URL: {url}
        Title: {title}
        Meta Description: {meta_description}
        H1 Tags: {h1_tags}
        H2 Tags: {h2_tags}
        Google Analytics: {ga_tag}
        Facebook Pixel: {fb_pixel}

        Additional HTML content:
        {full_html}

        Please structure your response as follows:
        1. Website Summary: [Brief summary of the website's content and purpose]
        2. SEO Audit: [Your SEO audit findings]
        3. Tracking Tags: [Your findings on tracking tags]
        4. UI/UX Opportunities: [Your UI/UX observations]
        5. CRO Opportunities: [Your CRO suggestions]"
  else if step = 2 then
    "Based on the following website summary and audit results, make intelligent guesses on the target client avatar(s) for this business. Give a detailed avatar including demographics, psychographics, pain points, fears, ideal outcomes as it pertains to this business for each of the target avatars.

        Website Summary: {website_summary}
        Audit Results: {audit_results}"
  else if step = 3 then
    "Create a list of unique value propositions for the business based on the following information. These value props should be incredibly niche-focused and should be formatted as either: 1. 'We help {{market}} do {{thing}} without {{pain point}}.' 2. '{{service or product}} for {{descriptor}} {{client avatar}}.' 3. 'We help {{avatar}} do {{thing}} so they can {{ideal outcome}}.' Information: {previous_steps}"
  else if step = 4 then
    "Perform keyword research based on the context from previous steps. Focus on determining:
        1. Main target keyword with a monthly search volume greater than 500, keyword difficulty below 21 and more than 40 related keywords
        2. Results should include the target keyword, the search volume, keyword difficulty and a list of related keywords to help rank for that target keyword.

        Previous context:
        {previous_steps}

        Format your response as follows:
        Target Keyword: [keyword]
        Search Volume: [volume]
        Keyword Difficulty: [difficulty]
        Related Keywords: [keyword1], [keyword2], [keyword3], ..."
  else if step = 5 then
    "Create a detailed content marketing plan based on a hub and spoke or content silo/cluster approach using the target keyword and related keywords from the previous step. The entire content plan should be based on ranking for the target keyword.

        Keyword research results:
        {keyword_research}

        Previous context:
        {previous_steps}"
  else if step = 6 then
    "Based on context from all previous steps, create a list of lead magnets and free tool marketing options to reach our target avatar with the highest purchase intent. Context: {previous_steps}"
  else if step = 7 then
    "Create a detailed email marketing plan that includes a nurture sequence, sales sequence and ongoing content via email to keep the mailing list warm. Use the following context: {previous_steps}"
  else if step = 8 then
    "Create a plan for content and emails that address all other stages of awareness. Use the following context: {previous_steps}"
  else if step = 9 then
    "Create a point-by-point report detailing the entire plan that includes everything from the above steps. This plan should break all learnings down into multiple projects that can be completed separately from each other. The projects should be ordered by lowest-effort, highest return to highest-effort, lowest return so we're focusing on knocking out the easy but impactful projects early, then building out the longer term, high-value projects over time. Context: {previous_steps}"
  else if step = 10 then
    "Give me a list of ideas for other income streams this business could create related to everything we've discussed so far. Each income stream should include a summary of the business, how it would be monetized and any further details necessary to determine if it's something the company wants to pursue. These income streams should include (but not be limited to) online courses, digital downloads, productized services, paid content (newsletters, etc.), monetized directories, memberships and SaaS opportunities. Context: {previous_steps}"
  else ""

/-- `generate_prompt(step, context)` (line 148):
`prompts.get(step, "").format(**context)`, `Except.error` being the raised
`KeyError` for a placeholder key absent from the context. -/
def generate_prompt (step : Nat) (context : Ctx) : Except String String :=
  render (parseFmt (promptsDict step).data) context

/-- The parsed page as `fetch_website_data` reads it: `title` is the
`<title>` tag when present (whose string may itself be absent), `metaTag`
the `content` of the meta-description tag when present, and `text` the raw
markup `response.text`. -/
structure Soup where
  text : String
  titleTag : Option (Option String)
  metaTag : Option String
  h1Tags : List String
  h2Tags : List String
deriving DecidableEq, Repr

/-- The outcome of the external fetch-and-parse: a parsed page, or the
exception message of a fetch/parse failure. -/
inductive FetchOutcome where
  | success (soup : Soup)
  | failure (msg : String)
deriving DecidableEq, Repr

/-- `"sub" in s` for Python strings. -/
def pyContains (sub s : String) : Bool :=
  (findSubAux sub.data s.data 0).isSome

/-- `fetch_website_data(url)` (lines 61-88), parameterised by the outcome of
`requests.get` + `BeautifulSoup`: on success the structured record of page
signals, on any failure the record `\x7b"error": message\x7d`. -/
def fetch_website_data (url : String) (outcome : FetchOutcome) : Ctx :=
  match outcome with
  | .failure e => [("error", PyVal.str e)]
  | .success soup =>
      [("url", PyVal.str url),
       ("title", match soup.titleTag with
         | none => PyVal.str "No title found"
         | some none => PyVal.pyNone
         | some (some s) => PyVal.str s),
       ("meta_description", match soup.metaTag with
         | none => PyVal.str "No meta description found"
         | some c => PyVal.str c),
       ("h1_tags", PyVal.strList soup.h1Tags),
       ("h2_tags", PyVal.strList soup.h2Tags),
       ("ga_tag", PyVal.str (if pyContains "google-analytics.com" soup.text then
           "Google Analytics tag found" else "No Google Analytics tag found")),
       ("fb_pixel", PyVal.str (if pyContains "connect.facebook.net" soup.text then
           "Facebook Pixel found" else "No Facebook Pixel found")),
       ("full_html", PyVal.str (pySlice soup.text 0 5000))]

/-- A row of the `projects` table. -/
structure ProjectRow where
  id : Nat
  name : String
  website_url : String
deriving DecidableEq, Repr

/-- A row of the `steps` table. -/
structure StepRow where
  project_id : Nat
  step_number : Nat
  title : String
  content : String
deriving DecidableEq, Repr

/-- A row of the `website_summaries` table. -/
structure SummaryRow where
  project_id : Nat
  content : String
deriving DecidableEq, Repr

/-- A row of the `contexts` table. -/
structure ContextRow where
  project_id : Nat
  step_number : Nat
  content : Ctx
deriving DecidableEq, Repr

/-- The persisted state: the four tables, rows in insertion order. -/
structure DB where
  projects : List ProjectRow
  steps : List StepRow
  summaries : List SummaryRow
  contexts : List ContextRow
deriving DecidableEq, Repr

/-- The step-specific context enrichment of `process_step` (lines 190-198):
step 1 merges the website data into the request context, step 2 injects
`audit_results` from the first persisted step-1 row (empty string when
absent), step 5 injects `keyword_research` from the first persisted step-4
row (empty string when absent); every other step passes the request context
through unchanged. -/
def enrich (db : DB) (fetch : FetchOutcome) (step project_id : Nat)
    (website_url : String) (context : Ctx) : Ctx :=
  if step = 1 then
    ctxUpdate context (fetch_website_data website_url fetch)
  else if step = 2 then
    ctxSet context "audit_results"
      (PyVal.str (match db.steps.find? (fun s => s.project_id == project_id && s.step_number == 1) with
        | some s => s.content
        | none => ""))
  else if step = 5 then
    ctxSet context "keyword_research"
      (PyVal.str (match db.steps.find? (fun s => s.project_id == project_id && s.step_number == 4) with
        | some s => s.content
        | none => ""))
  else context

/-- The website-summary extraction of `process_step` (lines 216-218):
`result[result.find("Website Summary:") + 16 : result.find("2. SEO Audit:")]`,
stripped. `pyFind` yields `-1` for an absent marker, which slicing then reads
as an index from the end. -/
def websiteSummaryOf (result : String) : String :=
  pyStrip (pySlice result
    (pyFind result "Website Summary:" + ("Website Summary:".length : Int))
    (pyFind result "2. SEO Audit:"))

/-- The HTTP-level outcome of `/api/process`: the 200 payload
`\x7bresponse, context\x7d`, the 404 `Project not found`, or the 500 payload
carrying the exception message. -/
inductive ProcessResult where
  | ok (response : String) (context : Ctx)
  | notFound
  | error (msg : String)
deriving DecidableEq, Repr

/-- The `/api/process` handler `process_step` (lines 175-232), parameterised
by the fetch outcome and the completion-service outcome for this invocation.
Every exception path (unknown project apart, which returns 404 before any
write) ends in `db.session.rollback()`, so the returned state is the input
state; on success the new Step row, the step-1 WebsiteSummary row and the
Context row are committed together. -/
def process_step (db : DB) (fetch : FetchOutcome) (complete : Except String String)
    (step project_id : Nat) (context : Ctx) : ProcessResult × DB :=
  match db.projects.find? (fun p => p.id == project_id) with
  | none => (ProcessResult.notFound, db)
  | some project =>
      match generate_prompt step (enrich db fetch step project_id project.website_url context) with
      | Except.error e => (ProcessResult.error e, db)
      | Except.ok _prompt =>
          match complete with
          | Except.error e => (ProcessResult.error e, db)
          | Except.ok result =>
              (ProcessResult.ok result (enrich db fetch step project_id project.website_url context),
               { db with
                 steps := db.steps ++
                   [⟨project_id, step, "Step " ++ toString step, result⟩],
                 summaries :=
                   if step = 1 then
                     db.summaries ++ [⟨project_id, websiteSummaryOf result⟩]
                   else db.summaries,
                 contexts := db.contexts ++
                   [⟨project_id, step, enrich db fetch step project_id project.website_url context⟩] })

/-! ## Helper lemmas on the dict operations and the renderer -/

theorem ctxGet_ctxSet_self (c : Ctx) (k : String) (v : PyVal) :
    ctxGet (ctxSet c k v) k = some v := by
  induction c with
  | nil => simp [ctxSet, ctxGet]
  | cons p rest ih =>
      by_cases h : p.1 = k
      · simp [ctxSet, h, ctxGet]
      · simp [ctxSet, h, ctxGet, ih]

theorem ctxGet_ctxSet_of_ne (c : Ctx) (k k' : String) (v : PyVal) (h : k' ≠ k) :
    ctxGet (ctxSet c k v) k' = ctxGet c k' := by
  induction c with
  | nil => simp [ctxSet, ctxGet, Ne.symm h]
  | cons p rest ih =>
      by_cases hp : p.1 = k
      · simp [ctxSet, hp, ctxGet, Ne.symm h]
      · simp only [ctxSet, if_neg hp, ctxGet, ih]

theorem render_ok_keys {t : List Seg} {c : Ctx} {s : String}
    (h : render t c = Except.ok s) :
    ∀ k, Seg.ph k ∈ t → (ctxGet c k).isSome := by
  induction t generalizing s with
  | nil => intro k hk; simp at hk
  | cons seg rest ih =>
      intro k hk
      cases seg with
      | lit str =>
          rcases List.mem_cons.mp hk with heq | hmem
          · simp at heq
          · simp only [render] at h
            cases hr : render rest c with
            | error e => rw [hr] at h; simp [Except.map] at h
            | ok s' => exact ih hr k hmem
      | ph key =>
          simp only [render] at h
          cases hg : ctxGet c key with
          | none => rw [hg] at h; simp at h
          | some v =>
              rcases List.mem_cons.mp hk with heq | hmem
              · simp only [Seg.ph.injEq] at heq
                subst heq
                simp [hg]
              · rw [hg] at h
                cases hr : render rest c with
                | error e => rw [hr] at h; simp [Except.map] at h
                | ok s' => exact ih hr k hmem

/-! ## C2: completion-service failure commits nothing -/

/-- C2: for every step number and every project, if the completion-service
call fails during a run-step invocation, then no new Step, WebsiteSummary or
Context row is committed: the persisted state after the invocation equals the
state before it. -/
theorem completion_failure_preserves_db (db : DB) (fetch : FetchOutcome) (e : String)
    (step project_id : Nat) (context : Ctx) :
    (process_step db fetch (Except.error e) step project_id context).2 = db := by
  unfold process_step
  split
  · rfl
  · split
    · rfl
    · rfl

/-! ## C6: unknown step numbers render to the empty prompt -/

/-- C6: for every step number outside 1..10 and every context, prompt
generation returns the empty string and does not raise, whatever keys the
context holds. -/
theorem unknown_step_renders_empty (step : Nat) (h : step < 1 ∨ 10 < step) (context : Ctx) :
    generate_prompt step context = Except.ok "" := by
  have h1 : step ≠ 1 := by omega
  have h2 : step ≠ 2 := by omega
  have h3 : step ≠ 3 := by omega
  have h4 : step ≠ 4 := by omega
  have h5 : step ≠ 5 := by omega
  have h6 : step ≠ 6 := by omega
  have h7 : step ≠ 7 := by omega
  have h8 : step ≠ 8 := by omega
  have h9 : step ≠ 9 := by omega
  have h10 : step ≠ 10 := by omega
  unfold generate_prompt promptsDict
  simp only [if_neg h1, if_neg h2, if_neg h3, if_neg h4, if_neg h5, if_neg h6,
    if_neg h7, if_neg h8, if_neg h9, if_neg h10]
  rfl

/-- Witness for C6 at step 11: an unknown step renders to the empty prompt
even over a nonempty context. -/
theorem unknown_step_renders_empty_witness :
    generate_prompt 11 [("previous_steps", PyVal.str "text")] = Except.ok "" :=
  unknown_step_renders_empty 11 (by decide) [("previous_steps", PyVal.str "text")]

/-! ## C8: the website signal extractor never raises -/

/-- C8: for every URL, on any fetch or parse failure the extractor returns
the record whose only key is `error`, mapped to the failure message, instead
of propagating the exception. -/
theorem fetch_failure_returns_error_record (url msg : String) :
    fetch_website_data url (FetchOutcome.failure msg) = [("error", PyVal.str msg)] :=
  rfl

/-! ## C9: literal fallbacks for missing title and meta description -/

/-- C9: for every successfully fetched page, a page with no title tag yields
the literal `No title found` and a page with no meta-description tag yields
the literal `No meta description found` in the extractor's record. -/
theorem missing_title_meta_fallbacks (url : String) (soup : Soup) :
    (soup.titleTag = none →
      ctxGet (fetch_website_data url (FetchOutcome.success soup)) "title" =
        some (PyVal.str "No title found"))
    ∧ (soup.metaTag = none →
      ctxGet (fetch_website_data url (FetchOutcome.success soup)) "meta_description" =
        some (PyVal.str "No meta description found")) := by
  constructor
  · intro h
    simp only [fetch_website_data, h]
    rfl
  · intro h
    simp only [fetch_website_data, h]
    rfl

/-- Witness for C9: the fallbacks on a concrete page that has neither a title
tag nor a meta-description tag. -/
theorem missing_title_meta_fallbacks_witness :
    ctxGet (fetch_website_data "http://x.test"
        (FetchOutcome.success ⟨"<html></html>", none, none, [], []⟩)) "title" =
      some (PyVal.str "No title found")
    ∧ ctxGet (fetch_website_data "http://x.test"
        (FetchOutcome.success ⟨"<html></html>", none, none, [], []⟩)) "meta_description" =
      some (PyVal.str "No meta description found") :=
  ⟨(missing_title_meta_fallbacks "http://x.test" ⟨"<html></html>", none, none, [], []⟩).1 rfl,
   (missing_title_meta_fallbacks "http://x.test" ⟨"<html></html>", none, none, [], []⟩).2 rfl⟩

/-! ## C4 and C5: step 2 and step 5 enrichment from persisted steps -/

/-- C4: running step 2 enriches the context with `audit_results` equal to the
content of the persisted step-1 row for the project found by the query, or
the empty string when no step-1 row exists for the project. -/
theorem step2_injects_audit_results (db : DB) (fetch : FetchOutcome)
    (project_id : Nat) (website_url : String) (context : Ctx) :
    (∀ r, db.steps.find? (fun s => s.project_id == project_id && s.step_number == 1) = some r →
      ctxGet (enrich db fetch 2 project_id website_url context) "audit_results" =
        some (PyVal.str r.content))
    ∧ ((∀ r ∈ db.steps, ¬(r.project_id = project_id ∧ r.step_number = 1)) →
      ctxGet (enrich db fetch 2 project_id website_url context) "audit_results" =
        some (PyVal.str "")) := by
  constructor
  · intro r hr
    simp only [enrich, if_neg (by decide : ¬(2 = 1)), if_pos rfl, hr]
    exact ctxGet_ctxSet_self context "audit_results" (PyVal.str r.content)
  · intro hnone
    have hfind : db.steps.find? (fun s => s.project_id == project_id && s.step_number == 1) = none := by
      rw [List.find?_eq_none]
      intro x hx
      have := hnone x hx
      simp only [Bool.and_eq_true, beq_iff_eq]
      tauto
    simp only [enrich, if_neg (by decide : ¬(2 = 1)), if_pos rfl, hfind]
    exact ctxGet_ctxSet_self context "audit_results" (PyVal.str "")

/-- Witness for C4 on concrete databases: one holding a persisted step-1 row
with content `Audit text`, one holding no steps at all. -/
theorem step2_injects_audit_results_witness :
    ctxGet (enrich ⟨[⟨1, "p", "u"⟩], [⟨1, 1, "Step 1", "Audit text"⟩], [], []⟩
        (FetchOutcome.failure "down") 2 1 "u" []) "audit_results" =
      some (PyVal.str "Audit text")
    ∧ ctxGet (enrich ⟨[⟨1, "p", "u"⟩], [], [], []⟩
        (FetchOutcome.failure "down") 2 1 "u" []) "audit_results" =
      some (PyVal.str "") :=
  ⟨(step2_injects_audit_results ⟨[⟨1, "p", "u"⟩], [⟨1, 1, "Step 1", "Audit text"⟩], [], []⟩
      (FetchOutcome.failure "down") 1 "u" []).1 ⟨1, 1, "Step 1", "Audit text"⟩ (by decide),
   (step2_injects_audit_results ⟨[⟨1, "p", "u"⟩], [], [], []⟩
      (FetchOutcome.failure "down") 1 "u" []).2 (by decide)⟩

/-- C5: running step 5 enriches the context with `keyword_research` equal to
the content of the persisted step-4 row for the project found by the query,
or the empty string when no step-4 row exists for the project. -/
theorem step5_injects_keyword_research (db : DB) (fetch : FetchOutcome)
    (project_id : Nat) (website_url : String) (context : Ctx) :
    (∀ r, db.steps.find? (fun s => s.project_id == project_id && s.step_number == 4) = some r →
      ctxGet (enrich db fetch 5 project_id website_url context) "keyword_research" =
        some (PyVal.str r.content))
    ∧ ((∀ r ∈ db.steps, ¬(r.project_id = project_id ∧ r.step_number = 4)) →
      ctxGet (enrich db fetch 5 project_id website_url context) "keyword_research" =
        some (PyVal.str "")) := by
  constructor
  · intro r hr
    simp only [enrich, if_neg (by decide : ¬(5 = 1)), if_neg (by decide : ¬(5 = 2)),
      if_pos rfl, hr]
    exact ctxGet_ctxSet_self context "keyword_research" (PyVal.str r.content)
  · intro hnone
    have hfind : db.steps.find? (fun s => s.project_id == project_id && s.step_number == 4) = none := by
      rw [List.find?_eq_none]
      intro x hx
      have := hnone x hx
      simp only [Bool.and_eq_true, beq_iff_eq]
      tauto
    simp only [enrich, if_neg (by decide : ¬(5 = 1)), if_neg (by decide : ¬(5 = 2)),
      if_pos rfl, hfind]
    exact ctxGet_ctxSet_self context "keyword_research" (PyVal.str "")

/-- Witness for C5 on concrete databases: one holding a persisted step-4 row
with content `KW text`, one holding no steps at all. -/
theorem step5_injects_keyword_research_witness :
    ctxGet (enrich ⟨[⟨1, "p", "u"⟩], [⟨1, 4, "Step 4", "KW text"⟩], [], []⟩
        (FetchOutcome.failure "down") 5 1 "u" []) "keyword_research" =
      some (PyVal.str "KW text")
    ∧ ctxGet (enrich ⟨[⟨1, "p", "u"⟩], [], [], []⟩
        (FetchOutcome.failure "down") 5 1 "u" []) "keyword_research" =
      some (PyVal.str "") :=
  ⟨(step5_injects_keyword_research ⟨[⟨1, "p", "u"⟩], [⟨1, 4, "Step 4", "KW text"⟩], [], []⟩
      (FetchOutcome.failure "down") 1 "u" []).1 ⟨1, 4, "Step 4", "KW text"⟩ (by decide),
   (step5_injects_keyword_research ⟨[⟨1, "p", "u"⟩], [], [], []⟩
      (FetchOutcome.failure "down") 1 "u" []).2 (by decide)⟩

/-! ## C1: the claimed `previous_steps` injection does not exist in the code -/

/-- Counterexample to C1: a project with persisted step-1 and step-2 rows, an
empty request context, and a run of step 3. The claim asserts the enriched
context contains a `previous_steps` key holding the newline-joined persisted
contents of steps 1 and 2; in fact the enrichment of `process_step` touches
only steps 1, 2 and 5 and never writes `previous_steps`, so the key is
absent from the enriched context altogether. -/
theorem previous_steps_not_injected_counterexample :
    ctxGet (enrich ⟨[⟨1, "acme", "http://acme.test"⟩],
        [⟨1, 1, "Step 1", "Audit text"⟩, ⟨1, 2, "Step 2", "Avatar text"⟩], [], []⟩
      (FetchOutcome.failure "down") 3 1 "http://acme.test" []) "previous_steps" = none :=
  rfl

/-- C1 as amended: for every step number at least 2, the enrichment performed
by the run-step operation before rendering leaves the `previous_steps` key of
the context exactly as the caller supplied it (in particular absent when the
caller did not supply it); no newline-joined concatenation of persisted step
contents is ever computed or injected. -/
theorem enrich_leaves_previous_steps_unchanged (db : DB) (fetch : FetchOutcome)
    (step project_id : Nat) (website_url : String) (context : Ctx) (h : 2 ≤ step) :
    ctxGet (enrich db fetch step project_id website_url context) "previous_steps" =
      ctxGet context "previous_steps" := by
  unfold enrich
  rw [if_neg (by omega : ¬(step = 1))]
  by_cases h2 : step = 2
  · rw [if_pos h2]
    exact ctxGet_ctxSet_of_ne context "audit_results" "previous_steps" _ (by decide)
  · rw [if_neg h2]
    by_cases h5 : step = 5
    · rw [if_pos h5]
      exact ctxGet_ctxSet_of_ne context "keyword_research" "previous_steps" _ (by decide)
    · rw [if_neg h5]

/-- Witness for the amended C1: running step 3 over a database holding
persisted steps 1 and 2, the enriched context carries exactly the
caller-supplied `previous_steps` value. -/
theorem enrich_leaves_previous_steps_unchanged_witness :
    ctxGet (enrich ⟨[⟨1, "acme", "http://acme.test"⟩],
        [⟨1, 1, "Step 1", "Audit text"⟩, ⟨1, 2, "Step 2", "Avatar text"⟩], [], []⟩
      (FetchOutcome.failure "down") 3 1 "http://acme.test"
      [("previous_steps", PyVal.str "caller supplied")]) "previous_steps" =
      ctxGet [("previous_steps", PyVal.str "caller supplied")] "previous_steps" :=
  enrich_leaves_previous_steps_unchanged
    ⟨[⟨1, "acme", "http://acme.test"⟩],
      [⟨1, 1, "Step 1", "Audit text"⟩, ⟨1, 2, "Step 2", "Avatar text"⟩], [], []⟩
    (FetchOutcome.failure "down") 3 1 "http://acme.test"
    [("previous_steps", PyVal.str "caller supplied")] (by decide)

/-! ## C3: a missing placeholder key fails the whole step -/

/-- C3: for every step in 1..10, when the enriched context lacks some
placeholder key named in the step's template, rendering raises a `KeyError`
and the run-step invocation returns the structured error payload carrying
that error message, committing nothing — never a default or partially
rendered prompt. -/
theorem missing_placeholder_fails_step (db : DB) (fetch : FetchOutcome)
    (complete : Except String String) (step project_id : Nat) (context : Ctx)
    (project : ProjectRow)
    (_hstep : 1 ≤ step ∧ step ≤ 10)
    (hproj : db.projects.find? (fun p => p.id == project_id) = some project)
    (k : String)
    (hk : Seg.ph k ∈ parseFmt (promptsDict step).data)
    (hmiss : ctxGet (enrich db fetch step project_id project.website_url context) k = none) :
    ∃ e, generate_prompt step (enrich db fetch step project_id project.website_url context) =
        Except.error e
      ∧ process_step db fetch complete step project_id context =
        (ProcessResult.error e, db) := by
  cases hg : generate_prompt step (enrich db fetch step project_id project.website_url context) with
  | ok s =>
      exfalso
      have hok : render (parseFmt (promptsDict step).data)
          (enrich db fetch step project_id project.website_url context) = Except.ok s := hg
      have := render_ok_keys hok k hk
      rw [hmiss] at this
      simp at this
  | error e =>
      refine ⟨e, rfl, ?_⟩
      unfold process_step
      rw [hproj]
      simp only [hg]

/-- Witness for C3: step 8's template names `previous_steps`, the request
context is empty and step 8 performs no enrichment, so the invocation fails
with the `KeyError` payload and commits nothing. -/
theorem missing_placeholder_fails_step_witness :
    ∃ e, generate_prompt 8 (enrich ⟨[⟨1, "p", "u"⟩], [], [], []⟩
          (FetchOutcome.failure "down") 8 1 "u" []) = Except.error e
      ∧ process_step ⟨[⟨1, "p", "u"⟩], [], [], []⟩ (FetchOutcome.failure "down")
          (Except.ok "completion text") 8 1 [] = (ProcessResult.error e, ⟨[⟨1, "p", "u"⟩], [], [], []⟩) :=
  missing_placeholder_fails_step ⟨[⟨1, "p", "u"⟩], [], [], []⟩ (FetchOutcome.failure "down")
    (Except.ok "completion text") 8 1 [] ⟨1, "p", "u"⟩ (by decide) (by decide)
    "previous_steps" (by decide) (by decide)

/-! ## Helper lemmas on `pyFind`, `pyIdx` and slicing -/

theorem findSubAux_some_bound (pat : List Char) :
    ∀ (hay : List Char) (i p : Nat), findSubAux pat hay i = some p →
      i ≤ p ∧ p - i + pat.length ≤ hay.length := by
  intro hay
  induction hay with
  | nil =>
      intro i p h
      unfold findSubAux at h
      split at h
      · rename_i hpre
        have hnil : pat = [] := by simpa using List.isPrefixOf_iff_prefix.mp hpre
        simp only [Option.some.injEq] at h
        subst h
        simp [hnil]
      · cases h
  | cons ch t ih =>
      intro i p h
      unfold findSubAux at h
      split at h
      · rename_i hpre
        simp only [Option.some.injEq] at h
        subst h
        have hle := (List.isPrefixOf_iff_prefix.mp hpre).length_le
        simp only [List.length_cons] at hle ⊢
        omega
      · have hr := ih (i + 1) p h
        simp only [List.length_cons]
        omega

theorem pyFind_eq_coe {s pat : String} {p : Nat} (h : pyFind s pat = (p : Int)) :
    findSubAux pat.data s.data 0 = some p ∧ p + pat.data.length ≤ s.data.length := by
  unfold pyFind at h
  split at h
  · rename_i q hf
    have hq : q = p := by exact_mod_cast h
    subst hq
    refine ⟨hf, ?_⟩
    have := (findSubAux_some_bound pat.data s.data 0 q hf).2
    omega
  · exfalso
    omega

theorem pyIdx_coe (n k : Nat) : pyIdx n (k : Int) = min k n := by
  unfold pyIdx
  rw [if_neg (by omega : ¬((k : Int) < 0))]
  simp

theorem pyIdx_neg_one (n : Nat) (h : 1 ≤ n) : pyIdx n (-1) = n - 1 := by
  unfold pyIdx
  rw [if_pos (by omega : (-1 : Int) < 0), if_neg (by omega : ¬((-1 : Int) + n < 0))]
  rw [show ((-1 : Int) + n) = ((n - 1 : Nat) : Int) from by omega]
  simp

/-! ## C7: summary extraction between the two markers -/

/-- C7: for every step-1 completion text in which `Website Summary:` first
occurs just after a prefix `a` and `2. SEO Audit:` first occurs just after
the intervening text `b`, the stored website summary equals `b` with leading
and trailing whitespace stripped. -/
theorem summary_extracted_between_markers (a b c : String)
    (h1 : pyFind (a ++ "Website Summary:" ++ b ++ "2. SEO Audit:" ++ c) "Website Summary:" =
      (a.length : Int))
    (h2 : pyFind (a ++ "Website Summary:" ++ b ++ "2. SEO Audit:" ++ c) "2. SEO Audit:" =
      ((a.length + 16 + b.length : Nat) : Int)) :
    websiteSummaryOf (a ++ "Website Summary:" ++ b ++ "2. SEO Audit:" ++ c) = pyStrip b := by
  have hA : (a ++ "Website Summary:").data.length = a.length + 16 := by
    show (a ++ "Website Summary:").length = a.length + 16
    rw [String.length_append, show "Website Summary:".length = 16 from rfl]
  have hX : ((a ++ "Website Summary:") ++ b).data.length = a.length + 16 + b.length := by
    show ((a ++ "Website Summary:") ++ b).length = a.length + 16 + b.length
    rw [String.length_append, String.length_append,
      show "Website Summary:".length = 16 from rfl]
  have hTlen : (a ++ "Website Summary:" ++ b ++ "2. SEO Audit:" ++ c).data.length =
      a.length + 16 + b.length + 13 + c.length := by
    show (a ++ "Website Summary:" ++ b ++ "2. SEO Audit:" ++ c).length = _
    rw [String.length_append, String.length_append, String.length_append,
      String.length_append, show "Website Summary:".length = 16 from rfl,
      show "2. SEO Audit:".length = 13 from rfl]
  have hT : (a ++ "Website Summary:" ++ b ++ "2. SEO Audit:" ++ c).data =
      ((a ++ "Website Summary:") ++ b).data ++ ("2. SEO Audit:" ++ c).data := by
    simp [String.data_append, List.append_assoc]
  unfold websiteSummaryOf
  rw [h1, h2, show ("Website Summary:".length : Int) = ((16 : Nat) : Int) from rfl,
    show (a.length : Int) + ((16 : Nat) : Int) = ((a.length + 16 : Nat) : Int) from by push_cast; ring]
  congr 1
  unfold pySlice
  rw [pyIdx_coe, pyIdx_coe, min_eq_left (by omega), min_eq_left (by omega)]
  rw [hT, ← hX, List.take_left,
    String.data_append (a ++ "Website Summary:") b, ← hA, List.drop_left]

/-- Witness for C7 at the concrete completion text of the spec's example. -/
theorem summary_extracted_between_markers_witness :
    websiteSummaryOf "Website Summary: Acme sells widgets. 2. SEO Audit: the rest" =
      "Acme sells widgets." :=
  summary_extracted_between_markers "" " Acme sells widgets. " " the rest"
    (by decide) (by decide)

/-! ## C10: extraction is total but built on raw find indices -/

/-- C10: summary extraction never raises, but a completion missing a marker
stores a corrupted summary. When `Website Summary:` first occurs at `p` and
`2. SEO Audit:` is absent, the failed search yields `-1`, used as the slice
end, so the stored summary is the stripped text from `p + 16` up to but
excluding the final character. When `Website Summary:` is absent, the slice
silently starts at the fixed index `15` (`-1 + 16`). -/
theorem summary_extraction_raw_indices (text : String) :
    (∀ p : Nat, pyFind text "Website Summary:" = (p : Int) →
      pyFind text "2. SEO Audit:" = -1 →
      websiteSummaryOf text =
        pyStrip ⟨(text.data.take (text.data.length - 1)).drop (p + 16)⟩)
    ∧ (pyFind text "Website Summary:" = -1 →
      ∀ j : Nat, pyFind text "2. SEO Audit:" = (j : Int) →
      websiteSummaryOf text = pyStrip ⟨(text.data.take j).drop 15⟩) := by
  constructor
  · intro p h1 h2
    have hb := (pyFind_eq_coe h1).2
    rw [show "Website Summary:".data.length = 16 from rfl] at hb
    unfold websiteSummaryOf
    rw [h1, h2, show ("Website Summary:".length : Int) = ((16 : Nat) : Int) from rfl,
      show (p : Int) + ((16 : Nat) : Int) = ((p + 16 : Nat) : Int) from by push_cast; ring]
    congr 1
    unfold pySlice
    rw [pyIdx_coe, pyIdx_neg_one _ (by omega), min_eq_left (by omega)]
  · intro h1 j h2
    have hb := (pyFind_eq_coe h2).2
    rw [show "2. SEO Audit:".data.length = 13 from rfl] at hb
    unfold websiteSummaryOf
    rw [h1, h2, show (-1 : Int) + ("Website Summary:".length : Int) = ((15 : Nat) : Int) from by decide]
    congr 1
    unfold pySlice
    rw [pyIdx_coe, pyIdx_coe,
      show min j text.data.length = j from min_eq_left (by omega)]
    rcases le_or_lt 15 text.data.length with hle | hlt
    · rw [show min 15 text.data.length = 15 from min_eq_left hle]
    · rw [show min 15 text.data.length = text.data.length from min_eq_right (by omega)]
      rw [List.drop_eq_nil_of_le (by rw [List.length_take]; omega),
        List.drop_eq_nil_of_le (by rw [List.length_take]; omega)]

/-- Witness for C10: a completion with only the first marker stores the
stripped text from index 16 to the second-to-last character (`hello worl`),
and a completion with only the second marker stores the stripped text from
the fixed index 15 up to that marker (`XY`). -/
theorem summary_extraction_raw_indices_witness :
    websiteSummaryOf "Website Summary: hello world" = "hello worl"
    ∧ websiteSummaryOf "0123456789abcdeXY 2. SEO Audit: tail" = "XY" :=
  ⟨(summary_extraction_raw_indices "Website Summary: hello world").1 0 (by decide) (by decide),
   (summary_extraction_raw_indices "0123456789abcdeXY 2. SEO Audit: tail").2 (by decide) 18
     (by decide)⟩
